import Mathlib

/-!
Verification development for the NeuroDOT volumetric file-IO module
(`src/neuro_dot/File_IO.py`): the 4dfp/NIfTI header and orientation
conversion engine (`nifti_4dfp`), the native-space completion
(`Make_NativeSpace_4dfp`), the text-header codec (`Read_4dfp_Header`,
`Write_4dfp_Header`) and the volume loader/saver.

The Python code is embedded shallowly:
* header dictionaries become association lists of `PyVal` values with
  Python dict semantics (lookup may fail with `KeyError`, assignment
  updates in place or appends);
* floating-point numbers become exact rationals (`ℚ`); `math.sqrt` is
  modelled by `ratSqrt`, exact on perfect squares, which is the only
  place the theorems below evaluate it;
* statements that raise in Python (KeyError on a missing key, TypeError
  when a list is applied with call syntax, AttributeError for attribute
  access on a dict) are modelled in the `Except PyErr` monad.
-/

namespace NeuroDOT

/-- Python runtime errors that the embedded code can raise. -/
inductive PyErr where
  | keyError (key : String)
  | typeError (msg : String)
  | valueError (msg : String)
  | attributeError (attr : String)
  | nameError (name : String)
  deriving DecidableEq, Repr

/-- Python values stored in the header dictionaries of File_IO.py:
integers, floats (as exact rationals), strings, and lists of numbers. -/
inductive PyVal where
  | int (n : ℤ)
  | rat (q : ℚ)
  | str (s : String)
  | ratList (xs : List ℚ)
  deriving DecidableEq, Repr

deriving instance DecidableEq for Except

/-- A Python dict with string keys, as an insertion-ordered association list. -/
abbrev PyDict := List (String × PyVal)

/-- Python dict lookup `h[k]` (as an `Option`; the raising form is `dGetE`). -/
def dGet : PyDict → String → Option PyVal
  | [], _ => none
  | (k1, v1) :: t, k => if k1 = k then some v1 else dGet t k

/-- Python dict assignment `h[k] = v`: update in place if the key exists,
append otherwise. -/
def dSet : PyDict → String → PyVal → PyDict
  | [], k, v => [(k, v)]
  | (k1, v1) :: t, k, v => if k1 = k then (k, v) :: t else (k1, v1) :: dSet t k v

/-- Python membership test `k in h`. -/
def dHas (h : PyDict) (k : String) : Bool := (dGet h k).isSome

/-- Python dict subscript `h[k]`, raising `KeyError` when the key is absent. -/
def dGetE (h : PyDict) (k : String) : Except PyErr PyVal :=
  match dGet h k with
  | some v => Except.ok v
  | none => Except.error (PyErr.keyError k)

/-- Python `==` between header values: numbers compare across int/float,
other values compare structurally, values of different kinds are unequal. -/
def pyEq : PyVal → PyVal → Bool
  | .int a, .int b => a = b
  | .int a, .rat b => (a : ℚ) = b
  | .rat a, .int b => a = (b : ℚ)
  | .rat a, .rat b => a = b
  | .str a, .str b => a = b
  | .ratList a, .ratList b => a = b
  | _, _ => false

/-- Value of a non-empty run of decimal digit characters. -/
def digitsVal (cs : List Char) : ℕ :=
  cs.foldl (fun a c => a * 10 + (c.toNat - 48)) 0

/-- Strip whitespace from both ends of a character list (Python `strip`,
and the whitespace handling of `float`). -/
def trimChars (cs : List Char) : List Char :=
  ((cs.dropWhile Char.isWhitespace).reverse.dropWhile Char.isWhitespace).reverse

/-- Split a character list at every occurrence of a single character,
keeping empty pieces (used for the decimal point of `float`). -/
def splitChar (sep : Char) (cs : List Char) : List (List Char) :=
  cs.foldr (fun c acc =>
    match acc with
    | [] => []
    | g :: gs => if c = sep then [] :: g :: gs else (c :: g) :: gs) [[]]

/-- Python `str.split()` with no argument over a character list: split on
whitespace runs and drop empty pieces. -/
def splitWs (cs : List Char) : List (List Char) :=
  (cs.foldr (fun c acc =>
    if c.isWhitespace then [] :: acc
    else
      match acc with
      | [] => [[c]]
      | g :: gs => (c :: g) :: gs) []).filter (fun g => g ≠ [])

/-- Worker for `splitSeq`, structurally recursive on a fuel bounded by the
input length (every step consumes at least one character). -/
def splitSeqAux (sep : List Char) : ℕ → List Char → List Char → List (List Char)
  | 0, rest, cur => [cur.reverse ++ rest]
  | _ + 1, [], cur => [cur.reverse]
  | fuel + 1, c :: rest, cur =>
    if sep.isPrefixOf (c :: rest) then
      cur.reverse :: splitSeqAux sep fuel ((c :: rest).drop sep.length) []
    else splitSeqAux sep fuel rest (c :: cur)

/-- Python `s.split(sep)` for a non-empty separator string, over character
lists: split at every non-overlapping occurrence of `sep`. -/
def splitSeq (sep : List Char) (cs : List Char) : List (List Char) :=
  if sep.isEmpty then [cs] else splitSeqAux sep (cs.length + 1) cs []

/-- Python `float(s)` on the strings this code base produces: optional
surrounding whitespace and sign, digits with at most one decimal point.
Exponents and inf/nan are never written by the 4dfp serializer and are
not modelled.  Returns `none` exactly when Python raises `ValueError`. -/
def pyFloat? (s : String) : Option ℚ :=
  let cs := trimChars s.toList
  let sgn : ℚ := match cs with
    | '-' :: _ => -1
    | _ => 1
  let cs := match cs with
    | '-' :: rest => rest
    | '+' :: rest => rest
    | _ => cs
  match splitChar '.' cs with
  | [a] =>
    if 0 < a.length && a.all Char.isDigit then
      some (sgn * (digitsVal a : ℚ))
    else none
  | [a, b] =>
    if 0 < a.length + b.length && a.all Char.isDigit && b.all Char.isDigit then
      some (sgn * ((digitsVal a : ℚ) + (digitsVal b : ℚ) / ((10 : ℚ) ^ b.length)))
    else none
  | _ => none

/-- Conversion of a header value to a float, as numpy performs when a value
is stored into a float array: ints and floats pass through, numeric strings
are parsed, anything else is a conversion error. -/
def npFloat : PyVal → Except PyErr ℚ
  | .int n => Except.ok (n : ℚ)
  | .rat q => Except.ok q
  | .str s =>
    match pyFloat? s with
    | some q => Except.ok q
    | none => Except.error (PyErr.valueError s)
  | .ratList _ => Except.error (PyErr.typeError "float conversion")

/-- Python `int(x)` on a float: truncation toward zero. -/
def pyInt (q : ℚ) : ℤ := q.num.tdiv q.den

/-- Subscript into a list of floats (`xs[k]`); the embedded loops only index
in bounds, so out-of-range reads default to 0. -/
def lget (xs : List ℚ) (i : ℕ) : ℚ := xs.getD i 0

/-- Read a 3- or 4-vector of floats out of a header value
(`header[k][0]` etc.); non-list values raise `TypeError` as Python
subscripting would. -/
def dGetRatListE (h : PyDict) (k : String) : Except PyErr (List ℚ) := do
  match ← dGetE h k with
  | .ratList xs => pure xs
  | _ => throw (PyErr.typeError k)

/-- Read a string-valued header field; non-strings fail string concatenation
with `TypeError` as in Python. -/
def dGetStrE (h : PyDict) (k : String) : Except PyErr String := do
  match ← dGetE h k with
  | .str s => pure s
  | _ => throw (PyErr.typeError k)

/-- Matrix entry `m[i, j]` of a numpy 2-D float array modelled as a list of
rows; the embedded loops only index in bounds. -/
def mget (m : List (List ℚ)) (i j : ℕ) : ℚ := (m.getD i []).getD j 0

/-- Matrix update `m[i, j] = v`. -/
def mset (m : List (List ℚ)) (i j : ℕ) (v : ℚ) : List (List ℚ) :=
  m.set i ((m.getD i []).set j v)

/-- `math.sqrt`, exact on rationals whose value is a perfect square
(`sqrt (a / b) = sqrt (a * b) / b`); every evaluation in the theorems below
is on a perfect square. -/
def ratSqrt (q : ℚ) : ℚ :=
  (Nat.sqrt (q.num.toNat * q.den) : ℚ) / (q.den : ℚ)

/-- Python bitwise not `~n` of a nonnegative int, as an integer. -/
def pyBitNot (n : ℕ) : ℤ := -(n : ℤ) - 1

/-- Python truthiness of an integer: nonzero. -/
def pyTruthy (z : ℤ) : Bool := z ≠ 0

/-- One pass of the inner axis scan of the to-LPI canonicalization
(File_IO.py lines 306-314 and 526-534):

    max = -1.0; k = -1
    for j in range(0,3):
        if np.logical_and((~(used & (1<<j))), abs(sform[j,i]) > max):
            max = abs(sform[j,i]); k = j

Note `~` is Python's bitwise not, so `~(used & (1<<j))` is never zero and
the `used` test never excludes a previously claimed axis. -/
def to_lpi_scan (sform : List (List ℚ)) (i used : ℕ) : ℤ :=
  ((List.range 3).foldl
    (fun km j =>
      if pyTruthy (pyBitNot (Nat.land used (1 <<< j))) ∧ |mget sform j i| > km.2
      then ((j : ℤ), |mget sform j i|) else km)
    ((-1 : ℤ), (-1 : ℚ))).1

/-- The to-LPI canonicalization shared by both conversion directions
(File_IO.py lines 304-327 and 524-547): choose, for output axes 0 and 1, the
input axis with the largest-magnitude affine entry in that column; derive
axis 2 from the `used` bitmask; record a flip bit per axis for negative
chosen entries.  Takes the incoming `order` list and returns the updated
order together with the `orientation` flip mask. -/
def to_lpi (sform : List (List ℚ)) (order0 : List ℤ) : List ℤ × ℕ :=
  let st := (List.range 2).foldl
    (fun st i =>
      let k := to_lpi_scan sform i st.1
      (st.1 ||| (1 <<< k.toNat), st.2.set i k))
    ((0 : ℕ), order0)
  let used := st.1
  let order := st.2
  let order :=
    if used = 3 then order.set 2 2
    else if used = 5 then order.set 2 1
    else if used = 6 then order.set 2 0
    else order
  let orientation := (List.range 3).foldl
    (fun o i => if mget sform (order.getD i 0).toNat i < 0 then o ^^^ (1 <<< i) else o)
    (0 : ℕ)
  (order, orientation)

/-- The inverse `revorder` of the axis order map, File_IO.py lines 347-349
and 550-552: `revorder[order[i]] = i` for i in 0..3. -/
def mkRevorder (order : List ℤ) : List ℕ :=
  (List.range 4).foldl (fun r i => r.set (order.getD i 0).toNat i) (List.replicate 4 0)

/-- The fields of the NIfTI-1 header that the 'n' conversion direction of
`nifti_4dfp` assigns (File_IO.py lines 356-385). -/
structure Nifti1Header where
  dim : List ℚ
  pixdim : List ℚ
  srow_x : List ℚ
  srow_y : List ℚ
  srow_z : List ℚ
  sform_code : ℤ
  qform_code : ℤ
  sizeof_hdr : ℤ
  aux_file : String
  descrip : String
  vox_offset : ℤ
  xyzt_units : ℤ
  datatype : ℤ
  bitpix : ℤ
  deriving DecidableEq, Repr

/-- Result of the header part of the 'n' (4dfp to NIfTI) conversion: the
assembled NIfTI header plus the internal state (`order`, `orientation`
flip mask, final sform, dims) that the voxel-reorientation stage uses. -/
structure NModeResult where
  header_out : Nifti1Header
  order : List ℤ
  orientation : ℕ
  sform : List (List ℚ)
  dim : List ℚ
  deriving DecidableEq, Repr

/-- `Make_NativeSpace_4dfp` (File_IO.py lines 170-196): complete a 4dfp
header with the native-space defaults, `mmppix = [mmx, -mmy, -mmz]` and
`center = mmppix * (dims/2 + [0,1,1])`, when those keys are absent.
A missing required field is reported with a print and then raises KeyError
at the following read; the embedding raises the KeyError directly. -/
def Make_NativeSpace_4dfp (header_in : PyDict) : Except PyErr PyDict := do
  -- lines 184-188
  let h ← if dHas header_in "mmppix" then pure header_in else do
    let mx ← npFloat (← dGetE header_in "mmx")
    let my ← npFloat (← dGetE header_in "mmy")
    let mz ← npFloat (← dGetE header_in "mmz")
    pure (dSet header_in "mmppix" (PyVal.ratList [mx, -my, -mz]))
  -- lines 189-195: center = mmppix * (array([int(nVx), int(nVy), int(nVz)])/2 + [0,1,1])
  let h2 ← if dHas h "center" then pure h else do
    let mm ← dGetRatListE h "mmppix"
    let x ← npFloat (← dGetE h "nVx")
    let y ← npFloat (← dGetE h "nVy")
    let z ← npFloat (← dGetE h "nVz")
    pure (dSet h "center" (PyVal.ratList [
      lget mm 0 * ((pyInt x : ℚ) / 2 + 0),
      lget mm 1 * ((pyInt y : ℚ) / 2 + 1),
      lget mm 2 * ((pyInt z : ℚ) / 2 + 1)]))
  pure h2

/-- Orientation prologue of the 'n' direction, File_IO.py lines 213-254:
defaults, the `acq`-to-`orientation` mapping (the sagittal branch assigns
the misspelled key 'orienation', leaving 'orientation' unset), the
coronal fix (applied only when 'orientation' already exists), the
unconditional read of header_in['orientation'] (KeyError when absent),
and the fixed axis swap per the legacy orientation enumeration.  Returns
the updated header, the orientation value, and the axis order. -/
def nifti_4dfp_n_orient (header_in : PyDict) :
    Except PyErr (PyDict × PyVal × List ℤ) := do
  -- lines 213-224: defaults; only `order` feeds the outputs
  let order : List ℤ := [0, 1, 2, 3]
  -- lines 226-231
  let h1 : PyDict :=
    match dGet header_in "acq" with
    | some (PyVal.str "transverse") => dSet header_in "orientation" (PyVal.int 2)
    | some (PyVal.str "sagittal") => dSet header_in "orienation" (PyVal.int 4)
    | _ => header_in
  -- lines 241-245: coronal sets orientation, but only when the key exists
  let h2 : PyDict :=
    if dHas h1 "orientation" then
      match dGet h1 "acq" with
      | some (PyVal.str "coronal") => dSet h1 "orientation" (PyVal.int 3)
      | _ => h1
    else h1
  -- lines 247-254: unconditional read of 'orientation', then the swap
  let ov ← dGetE h2 "orientation"
  let order : List ℤ :=
    if pyEq ov (PyVal.int 4) then
      let tempv := order.getD 1 0
      let order := order.set 1 (order.getD 0 0)
      order.set 0 tempv
    else if pyEq ov (PyVal.int 3) then
      let tempv := order.getD 2 0
      let order := order.set 2 (order.getD 1 0)
      order.set 1 tempv
    else order
  pure (h2, ov, order)

/-- Header computation of `nifti_4dfp(header_in, img_in, 'n')` — the
legacy-to-standardized direction, File_IO.py lines 212-385: orientation
bookkeeping, affine assembly, to-LPI canonicalization, flip re-anchoring,
column reorder, and NIfTI header construction.  The subsequent voxel stage
is `auto_orient_n_voxels` below. -/
def nifti_4dfp_n_header (header_in : PyDict) : Except PyErr NModeResult := do
  -- lines 213-254 (see nifti_4dfp_n_orient)
  let (h2, ov, order) ← nifti_4dfp_n_orient header_in
  let timestep : ℚ := 1
  -- lines 233-237: 3x4 sform initialized to zeros
  let sform : List (List ℚ) := List.replicate 3 (List.replicate 4 0)
  -- lines 256-258: place ones per the permutation
  let sform := (List.range 3).foldl (fun s i => mset s (order.getD i 0).toNat i 1) sform
  -- lines 259-266: matrix_size from nVx..nVt when present, then dim.
  -- The source stores the raw values and numpy converts them to float on
  -- assignment into `dim`; the embedding converts when storing.
  let h3 ← if dHas h2 "nVx" then do
      let x ← npFloat (← dGetE h2 "nVx")
      let y ← npFloat (← dGetE h2 "nVy")
      let z ← npFloat (← dGetE h2 "nVz")
      let t ← npFloat (← dGetE h2 "nVt")
      pure (dSet h2 "matrix_size" (PyVal.ratList [x, y, z, t]))
    else pure h2
  let ms ← dGetRatListE h3 "matrix_size"
  let dim : List ℚ := [lget ms 0, lget ms 1, lget ms 2, lget ms 3]
  -- lines 268-276: spacing from mmppix, center from center
  let mm ← dGetRatListE h3 "mmppix"
  let spacing : List ℚ := [lget mm 0, lget mm 1, lget mm 2]
  let ce ← dGetRatListE h3 "center"
  let center : List ℚ := [lget ce 0, lget ce 1, lget ce 2]
  -- lines 278-285: sagittal/coronal re-express one axis via
  -- spacing*(dim+1) - center, after negating that axis
  let (spacing, center) :=
    if pyEq ov (PyVal.int 4) then
      let center := center.set 2 (-(lget center 2))
      let spacing := spacing.set 2 (-(lget spacing 2))
      let center := center.set 2 (lget spacing 2 * (lget dim 2 + 1) - lget center 2)
      (spacing, center)
    else if pyEq ov (PyVal.int 3) then
      let center := center.set 0 (-(lget center 0))
      let spacing := spacing.set 0 (-(lget spacing 0))
      let center := center.set 0 (lget spacing 0 * (lget dim 0 + 1) - lget center 0)
      (spacing, center)
    else (spacing, center)
  -- lines 287-290: Fortran 1-indexing adjustment,
  -- center[i] = -(center[i] - spacing[i])
  let center := (List.range 3).foldl (fun c i => c.set i (-(lget c i - lget spacing i))) center
  -- lines 291-301: copy the sform into t4trans, then scale the columns by
  -- spacing and accumulate the center into the translation column
  let t4trans := sform
  let sform := (List.range 3).foldl (fun s i =>
      let s := (List.range 3).foldl
        (fun s j => mset s i j (mget t4trans i j * lget spacing j)) s
      (List.range 3).foldl
        (fun s j => mset s i 3 (mget s i 3 + lget center j * mget t4trans i j)) s)
    sform
  -- lines 303-327: to-LPI canonicalization
  let (order, orientation) := to_lpi sform order
  -- lines 328-334: flip each masked axis, re-anchoring the translation at
  -- (dim[i]-1) times the column
  let sform := (List.range 3).foldl (fun s i =>
      if orientation &&& (1 <<< i) ≠ 0 then
        (List.range 3).foldl (fun s j =>
          let s := mset s j 3 ((lget dim i - 1) * mget s j i + mget s j 3)
          mset s j i (-(mget s j i))) s
      else s)
    sform
  -- line 335: orig_sform = sform binds a reference, not a copy; the
  -- reorder below mutates both, so orig_sform equals the final sform
  -- lines 337-340: reorder the axis columns, sequentially and in place
  let sform := (List.range 3).foldl (fun s i =>
      (List.range 3).foldl (fun s j => mset s i (order.getD j 0).toNat (mget s i j)) s)
    sform
  -- lines 342-345: self-assignment, no effect
  -- lines 346-349: revorder inverts the order map
  let revorder : List ℕ := mkRevorder order
  -- lines 351-355: spacing recomputed as Euclidean column norms
  let spacing : List ℚ := (List.range 3).map (fun i =>
    ratSqrt ((List.range 3).foldl (fun a j => a + mget sform j i * mget sform j i) 0))
  -- lines 356-385: assemble the NIfTI header
  let filename ← dGetStrE h3 "filename"
  let header_out : Nifti1Header := {
    dim := [4, lget dim (revorder.getD 0 0), lget dim (revorder.getD 1 0),
            lget dim (revorder.getD 2 0), lget dim (revorder.getD 3 0), 0, 0, 0]
    pixdim := [1, lget spacing 0, lget spacing 1, lget spacing 2, timestep, 0, 0, 0]
    srow_x := [mget sform 0 0, mget sform 0 1, mget sform 0 2, mget sform 0 3]
    srow_y := [mget sform 1 0, mget sform 1 1, mget sform 1 2, mget sform 1 3]
    srow_z := [mget sform 2 0, mget sform 2 1, mget sform 2 2, mget sform 2 3]
    sform_code := 3
    qform_code := 3
    sizeof_hdr := 348
    aux_file := ""
    descrip := filename ++ ".4dfp.ifh converted with nifti_4dfp"
    vox_offset := 352
    xyzt_units := 2 + 8    -- NIFTI_UNITS_MM + NIFTI_UNITS_SEC
    datatype := 16
    bitpix := 32 }
  pure { header_out := header_out, order := order, orientation := orientation,
         sform := sform, dim := dim }

/-- Python call syntax applied to a list or tuple object (`xs(i)`): raises
TypeError ("object is not callable").  Lines 400-402 and 664-666 of the
source apply the `order` list and the shape tuple this way — transliterated
MATLAB indexing. -/
def pyCallSeq {α : Type} (xs : List α) (i : ℤ) : Except PyErr α :=
  Except.error (PyErr.typeError "object is not callable")

/-- Voxel-reorientation stage of the 'n' conversion (File_IO.py lines
387-447).  The first statement of the copy loop (lines 400-402),

    for i in range(1, len(in_length)+1):
        target_length[order(i-1)+1] = in_length(i-1)

applies the Python list `order` and the shape tuple `in_length` with call
syntax, so Python raises TypeError on the first iteration for every volume
with at least one axis, before any flip of the voxel buffer.  Only the
prefix up to the failing statement is embedded; the rest of the block
(lines 404-447, including the unconditional coronal triple mirror at lines
431-434) is unreachable. -/
def auto_orient_n_voxels (order : List ℤ) (in_length : List ℕ) :
    Except PyErr (List ℤ) := do
  -- lines 391-399: scratch arrays
  let target_length : List ℤ := List.replicate 4 0
  -- lines 400-402
  (List.range in_length.length).foldlM (fun tl i => do
      let k ← pyCallSeq order ((i : ℤ))
      let v ← pyCallSeq in_length ((i : ℤ))
      pure (tl.set (k + 1).toNat ((v : ℤ))))
    target_length

/-- `nifti_4dfp(header_in, img_in, 'n')` on a volume of the given shape:
the header computation followed by the voxel-reorientation stage. -/
def nifti_4dfp_n (header_in : PyDict) (img_shape : List ℕ) :
    Except PyErr Nifti1Header := do
  let st ← nifti_4dfp_n_header header_in
  let _ ← auto_orient_n_voxels st.order img_shape
  pure st.header_out

/-- The sform/qform code normalization of the standardized-header decode
path, File_IO.py lines 122-138 (LoadVolumetricData) and 461-477 (the '4'
direction of nifti_4dfp): the string codes 'scanner', 'talairach',
'unknown' become 1, 3, 2, and the value 0 stays 0.  The cascade has no
else branch: every other value is left unchanged, and no branch raises. -/
def normalize_code (v : PyVal) : PyVal :=
  if pyEq v (PyVal.str "scanner") then PyVal.int 1
  else if pyEq v (PyVal.str "talairach") then PyVal.int 3
  else if pyEq v (PyVal.str "unknown") then PyVal.int 2
  else if pyEq v (PyVal.int 0) then PyVal.int 0
  else v

/-- Lines 461-477 of the '4' direction: normalize both code fields of the
header (KeyError when a code field is absent, as at the source's reads). -/
def nifti_4dfp_4_normalize (header_in : PyDict) : Except PyErr PyDict := do
  let s ← dGetE header_in "sform_code"
  let h := dSet header_in "sform_code" (normalize_code s)
  let q ← dGetE h "qform_code"
  pure (dSet h "qform_code" (normalize_code q))

/-- `parse_nifti`, File_IO.py lines 450-522 of the '4' (NIfTI to 4dfp)
direction: unwrap, normalize the code fields, and assemble the 4x4 sform
from the srow vectors or from the quaternion/originless fallbacks.
Returns the updated header dict together with the sform.

Reachability note: after normalization the code fields are ints, and
`header_in['sform_code'] != 'unknown'` (line 486) compares an int with a
string, which is always True in Python, so the srow branch is always taken
and the quaternion branch (lines 491-522) is dead; it is embedded for
completeness. -/
def nifti_4dfp_4_parse (header0 : PyDict) :
    Except PyErr (PyDict × List (List ℚ)) := do
  -- lines 456-457: `if 'raw' in header_in: header_in = header_in['raw']`.
  -- Nested dicts are outside the value model; a header carrying 'raw' is
  -- rejected here instead of unwrapped (no theorem below passes one).
  let header_in ← if dHas header0 "raw" then throw (PyErr.typeError "raw")
    else pure header0
  -- lines 459-460 and 480 set order = [0,1,2,3]; lines 461-477:
  let header_in ← nifti_4dfp_4_normalize header_in
  -- lines 481-484: 4x4 zero sform
  let sform : List (List ℚ) := List.replicate 4 (List.replicate 4 0)
  -- lines 486-522
  let (header_in, sform) ←
    match dGet header_in "sform_code" with
    | some (PyVal.str "unknown") =>
      (match dGet header_in "qform_code" with
       | some (PyVal.str "unknown") => do
         -- lines 519-522: the originless way
         let pd ← dGetRatListE header_in "pixdim"
         let sform := mset sform 0 0 (lget pd 1)
         let sform := mset sform 1 1 (lget pd 2)
         let sform := mset sform 2 2 (lget pd 3)
         pure (header_in, sform)
       | _ => do
         -- lines 492-518: quaternion reconstruction
         let b ← npFloat (← dGetE header_in "quatern_b")
         let c ← npFloat (← dGetE header_in "quatern_c")
         let d ← npFloat (← dGetE header_in "quatern_d")
         -- math.sqrt raises ValueError on a negative argument
         let asq := 1 - (b ^ 2 + c ^ 2 + d ^ 2)
         if asq < 0 then throw (PyErr.valueError "math domain error")
         let a := ratSqrt asq
         let sform := mset sform 0 0 (a ^ 2 + b ^ 2 - c ^ 2 - d ^ 2)
         let sform := mset sform 0 1 (2 * b * c - 2 * a * d)
         let sform := mset sform 0 2 (2 * b * d + 2 * a * c)
         let sform := mset sform 1 0 (2 * b * c + 2 * a * d)
         let sform := mset sform 1 1 (a ^ 2 + c ^ 2 - b ^ 2 - d ^ 2)
         let sform := mset sform 1 2 (2 * c * d - 2 * a * b)
         let sform := mset sform 2 0 (2 * b * d - 2 * a * c)
         let sform := mset sform 2 1 (2 * c * d + 2 * a * b)
         let sform := mset sform 2 2 (a ^ 2 + d ^ 2 - c ^ 2 - b ^ 2)
         -- lines 508-509: a negative pixdim[0] negates pixdim[3]
         let pd ← dGetRatListE header_in "pixdim"
         let pd := if lget pd 0 < 0 then pd.set 3 (-(lget pd 3)) else pd
         let header_in := dSet header_in "pixdim" (PyVal.ratList pd)
         -- lines 511-514: scale the columns by pixdim[1..3]
         let sform := (List.range 3).foldl (fun s j =>
             let s := mset s j 0 (mget s j 0 * lget pd 1)
             let s := mset s j 1 (mget s j 1 * lget pd 2)
             mset s j 2 (mget s j 2 * lget pd 3)) sform
         -- lines 516-518: translation from the qoffsets
         let sform := mset sform 0 3 (← npFloat (← dGetE header_in "qoffset_x"))
         let sform := mset sform 1 3 (← npFloat (← dGetE header_in "qoffset_y"))
         let sform := mset sform 2 3 (← npFloat (← dGetE header_in "qoffset_z"))
         pure (header_in, sform))
    | _ => do
      -- lines 486-490: copy the srow vectors into the sform rows
      let sx ← dGetRatListE header_in "srow_x"
      let sy ← dGetRatListE header_in "srow_y"
      let sz ← dGetRatListE header_in "srow_z"
      let sform := (List.range 4).foldl (fun s i =>
          let s := mset s 0 i (lget sx i)
          let s := mset s 1 i (lget sy i)
          mset s 2 i (lget sz i)) sform
      pure (header_in, sform)
  pure (header_in, sform)

/-- The 4dfp header record emitted by the '4' conversion direction
(File_IO.py lines 639-649). -/
structure Fdfp4Header where
  matrix_size : List ℚ
  acq : String
  nDim : ℤ
  orientation : ℤ
  scaling_factor : List ℚ
  mmppix : List ℚ
  center : List ℚ
  deriving DecidableEq, Repr

/-- File_IO.py lines 524-649 of the '4' direction, after `parse_nifti`:
to-LPI canonicalization, axis flips and reorder, spacing as column norms
with the legacy +,-,- sign convention, inversion of the 3x3 linear part by
adjugate over determinant, and reconstruction of the legacy center/spacing
convention.

Line 587, `t4trans = nm.repmat([0.0], 4,4)`, references `nm`, which the
module never imports (numpy.matlib), so as written Python raises NameError
there on every call.  The expression transliterates MATLAB
`repmat(0.0, 4, 4)`, a 4x4 zero matrix, and the embedding continues with
that value; theorems that depend on code past this line are settled
against the transliterated algorithm.

Dividing by a zero determinant produces inf/nan in numpy rather than an
error; the spec rules singular affines out of scope, and in the embedding
division of `ℚ` by zero yields 0. -/
def nifti_4dfp_4_finish (header_in : PyDict) (sform0 : List (List ℚ)) :
    Except PyErr Fdfp4Header := do
  -- lines 524-547: to-LPI
  let (order, orientation) := to_lpi sform0 [0, 1, 2, 3]
  -- lines 550-552
  let revorder := mkRevorder order
  -- lines 554-556: pre-flip the first two output axes
  let orientation := orientation ^^^ (1 <<< revorder.getD 0 0)
  let orientation := orientation ^^^ (1 <<< revorder.getD 1 0)
  -- line 557 allocates an unused temp; line 558 orig_sform aliases sform.
  -- lines 559-564: flip the masked axes.  The loop reads
  -- header_in['dim'][i+1]; the read is hoisted here — 'dim' is read
  -- unconditionally at lines 631-643 in any case.
  let dimL ← dGetRatListE header_in "dim"
  let sform := (List.range 3).foldl (fun s i =>
      if orientation &&& (1 <<< i) ≠ 0 then
        (List.range 3).foldl (fun s j =>
          let s := mset s j 3 ((lget dimL (i + 1) - 1) * mget s j i + mget s j 3)
          mset s j i (-(mget s j i))) s
      else s)
    sform0
  -- lines 566-569: reorder the axis columns, sequentially and in place
  let sform := (List.range 3).foldl (fun s i =>
      (List.range 3).foldl (fun s j => mset s i (order.getD j 0).toNat (mget s i j)) s)
    sform
  -- lines 571-574: self-assignment, no effect
  -- lines 576-581: spacing = [0,0,0,1], entries 0..2 become column norms
  let spacing : List ℚ :=
    ((List.range 3).map (fun i =>
      ratSqrt ((List.range 3).foldl (fun a j => a + mget sform j i ^ 2) 0))) ++ [1]
  -- lines 583-584: keep the legacy +,-,- sign convention
  let spacing := spacing.set 0 (-(lget spacing 0))
  let spacing := spacing.set 1 (-(lget spacing 1))
  -- lines 591-593: divide the sform columns by spacing
  let sform := (List.range 3).foldl (fun s i =>
      (List.range 3).foldl (fun s j => mset s i j (mget s i j / lget spacing j)) s)
    sform
  -- lines 595-604: determinant by the rule of Sarrus; the Python index
  -- (i-j+3) % 3 equals (i+3-j) % 3
  let determinant := (List.range 3).foldl (fun acc i =>
      let temp := (List.range 3).foldl (fun t j => t * mget sform j ((i + j) % 3)) 1
      let temp2 := (List.range 3).foldl (fun t j => t * mget sform j ((i + 3 - j) % 3)) 1
      acc + temp - temp2) 0
  -- lines 606-615: adjugate into t4trans (4x4 zeros with [3,3] = 1; see
  -- the note on line 587 above)
  let t4trans := mset (List.replicate 4 (List.replicate 4 0)) 3 3 1
  let t4trans := (List.range 3).foldl (fun t i =>
      let a := (i + 1) % 3
      let b := (i + 2) % 3
      (List.range 3).foldl (fun t j =>
        let c := (j + 1) % 3
        let d := (j + 2) % 3
        mset t j i (mget sform a c * mget sform b d - mget sform a d * mget sform b c)) t)
    t4trans
  -- line 617: divide the 3x3 block by the determinant
  let t4trans := (List.range 3).foldl (fun t i =>
      (List.range 3).foldl (fun t j => mset t i j (mget t i j / determinant)) t)
    t4trans
  -- lines 621-624: center = t4trans applied to the translation column
  let center : List ℚ := (List.range 3).map (fun i =>
      (List.range 3).foldl (fun a j => a + mget sform j 3 * mget t4trans i j) 0)
  -- lines 626-628: center[i] = -center[i] + spacing[i]
  let center := (List.range 3).foldl
      (fun c i => c.set i (-(lget c i) + lget spacing i)) center
  -- lines 630-637: reverse the legacy center/spacing convention on x and z
  let center := center.set 0
      (lget spacing 0 * (lget dimL (revorder.getD 0 0 + 1) + 1) - lget center 0)
  let center := center.set 0 (-(lget center 0))
  let spacing := spacing.set 0 (-(lget spacing 0))
  let center := center.set 2
      (lget spacing 2 * (lget dimL (revorder.getD 2 0 + 1) + 1) - lget center 2)
  let center := center.set 2 (-(lget center 2))
  let spacing := spacing.set 2 (-(lget spacing 2))
  -- lines 639-649: the output 4dfp header; note that line 643 adds 1 to
  -- the value dim[revorder[3]] instead of subscripting at revorder[3]+1
  pure {
    matrix_size := [lget dimL (revorder.getD 0 0 + 1), lget dimL (revorder.getD 1 0 + 1),
                    lget dimL (revorder.getD 2 0 + 1), lget dimL (revorder.getD 3 0) + 1]
    acq := "transverse"
    nDim := 4
    orientation := 2
    scaling_factor := spacing.map (fun q => |q|)
    mmppix := [lget spacing 0, lget spacing 1, lget spacing 2]
    center := [lget center 0, lget center 1, lget center 2] }

/-- Header computation of `nifti_4dfp(header_in, img_in, '4')` — the
standardized-to-legacy direction, File_IO.py lines 450-649: `parse_nifti`
followed by the to-LPI/inversion stage. -/
def nifti_4dfp_4_header (header_in : PyDict) : Except PyErr Fdfp4Header := do
  let (h, sform) ← nifti_4dfp_4_parse header_in
  nifti_4dfp_4_finish h sform

/-- numpy's reshape failure: the ValueError message "cannot reshape array
of size N into shape (a, b, c, d)" names the observed element count and
the declared target shape. -/
structure ReshapeError where
  size : ℕ
  shape : List ℕ
  deriving DecidableEq, Repr

/-- Line 101 of LoadVolumetricData:
`np.reshape(volume, (int(nVx), int(nVy), int(nVz), int(nVt)))` on the flat
float vector read from the .img file.  numpy reshape succeeds exactly when
the declared element count matches the buffer length, and otherwise raises
the ValueError above, naming both sizes. -/
def load_4dfp_reshape (volume : List ℚ) (nVx nVy nVz nVt : ℕ) :
    Except ReshapeError (List ℚ) :=
  if volume.length = nVx * nVy * nVz * nVt then Except.ok volume
  else Except.error { size := volume.length, shape := [nVx, nVy, nVz, nVt] }

/-- Attribute access `obj.attr` on a Python dict: dicts expose no such
data attributes, so `header.acq` (Write_4dfp_Header lines 1167-1172)
raises AttributeError. -/
def pyDictAttr (h : PyDict) (attr : String) : Except PyErr PyVal :=
  Except.error (PyErr.attributeError attr)

/-- Python `str()` of a header value.  Decimal float rendering is
abstracted as the rational's `toString`; no theorem depends on the digits,
only on the bracket/comma structure that `str` puts around a list. -/
def pyStr : PyVal → String
  | .int n => toString n
  | .rat q => toString q
  | .str s => s
  | .ratList xs => "[" ++ String.intercalate ", " (xs.map (fun q => toString q)) ++ "]"

/-- `Write_4dfp_Header` (File_IO.py lines 1136-1188), embedded as the list
of text lines printed to the .ifh file.  Each `print` call emits its
argument, which already ends in a newline, plus print's own newline: one
content line followed by one empty line.

Lines 1167-1172 read `header.acq` — attribute access on a dict — which
raises AttributeError in Python, so the serializer never completes for a
dict header.  The continuation is embedded anyway so the emitted lines can
be compared against the parser. -/
def Write_4dfp_Header_lines (header : PyDict) (filename : String) :
    Except PyErr (List String) := do
  let vok ← dGetE header "version_of_keys"
  let fmt ← dGetE header "format"
  let bpp ← dGetE header "bytes_per_pixel"
  -- lines 1160-1165: `byte` is bound only for the values 'b' and 'l'; any
  -- other value leaves it unbound and line 1165 raises NameError
  let bv ← dGetE header "byte"
  let byteWord ← if pyEq bv (PyVal.str "b") then pure "big"
    else if pyEq bv (PyVal.str "l") then pure "little"
    else throw (PyErr.nameError "byte")
  -- lines 1150-1165; note line 1154 writes the constant conversion
  -- program 'MATLABto4dfp' and line 1157 writes the output filename, not
  -- header['filename']
  let ls : List String :=
    ["INTERFILE :=", "",
     "version of keys := " ++ pyStr vok, "",
     "image modality := dot", "",
     "originating system := Neuro-DOT", "",
     "conversion program := MATLABto4dfp", "",
     "original institution := Washington University", "",
     "number format := " ++ pyStr fmt, "",
     "name of data file := " ++ filename, "",
     "number of bytes per pixel := " ++ pyStr bpp, "",
     "imagedata byte order := " ++ byteWord ++ "endian", ""]
  -- lines 1167-1172: `header.acq`, attribute access on a dict
  let acqv ← pyDictAttr header "acq"
  let orientLines : List String :=
    if pyEq acqv (PyVal.str "transverse") then ["orientation := 2", ""]
    else if pyEq acqv (PyVal.str "coronal") then ["orientation := 3", ""]
    else if pyEq acqv (PyVal.str "sagittal") then ["orientation := 4", ""]
    else []
  -- lines 1175-1186
  let nd ← dGetE header "nDim"
  let nx ← dGetE header "nVx"
  let ny ← dGetE header "nVy"
  let nz ← dGetE header "nVz"
  let nt ← dGetE header "nVt"
  let mx ← dGetE header "mmx"
  let my ← dGetE header "mmy"
  let mz ← dGetE header "mmz"
  let tail1 : List String :=
    ["number of dimensions := " ++ pyStr nd, "",
     "matrix size [1] := " ++ pyStr nx, "",
     "matrix size [2] := " ++ pyStr ny, "",
     "matrix size [3] := " ++ pyStr nz, "",
     "matrix size [4] := " ++ pyStr nt, "",
     "scaling factor (mm/pixel) [1] := " ++ pyStr mx, "",
     "scaling factor (mm/pixel) [2] := " ++ pyStr my, "",
     "scaling factor (mm/pixel) [3] := " ++ pyStr mz, ""]
  let tail2 : List String :=
    (match dGet header "mmppix" with
     | some v => ["mmppix := " ++ pyStr v, ""]
     | none => []) ++
    (match dGet header "center" with
     | some v => ["center := " ++ pyStr v, ""]
     | none => [])
  pure (ls ++ orientLines ++ tail1 ++ tail2)

/-- Python `str.split()` with no argument: split on whitespace runs,
dropping empty pieces. -/
def pySplitWs (s : String) : List String :=
  (splitWs s.toList).map String.mk

/-- First pass of `Read_4dfp_Header` (File_IO.py lines 705-712): split
each line on ":=", skip lines that do not split into exactly two tokens,
strip both sides, and store them in the raw ifh dict. -/
def read_ifh_pairs (lines : List String) : PyDict :=
  lines.foldl (fun d line =>
    match splitSeq [':', '='] line.toList with
    | [k, v] => dSet d (String.mk (trimChars k)) (PyVal.str (String.mk (trimChars v)))
    | _ => d) []

/-- Copy a raw ifh entry to a header field when present (the string-valued
fields of File_IO.py lines 716-729 and 749-777). -/
def copyKey (ifh h : PyDict) (src dst : String) : PyDict :=
  match dGet ifh src with
  | some v => dSet h dst v
  | none => h

/-- A `float(...)`-converted scalar field (File_IO.py lines 764-771);
malformed numeric text raises ValueError. -/
def parseFloatKey (ifh h : PyDict) (src dst : String) : Except PyErr PyDict :=
  match dGet ifh src with
  | some (PyVal.str s) =>
    (match pyFloat? s with
     | some q => Except.ok (dSet h dst (PyVal.rat q))
     | none => Except.error (PyErr.valueError src))
  | some _ => Except.error (PyErr.typeError src)
  | none => Except.ok h

/-- A whitespace-split 3-vector field (File_IO.py lines 779-785); any
token rejected by `float` raises ValueError. -/
def parseVecKey (ifh h : PyDict) (src dst : String) : Except PyErr PyDict :=
  match dGet ifh src with
  | some (PyVal.str s) =>
    (match (pySplitWs s).mapM pyFloat? with
     | some qs => Except.ok (dSet h dst (PyVal.ratList qs))
     | none => Except.error (PyErr.valueError src))
  | some _ => Except.error (PyErr.typeError src)
  | none => Except.ok h

/-- `Read_4dfp_Header` (File_IO.py lines 687-787) over the header text,
given as its list of lines. -/
def Read_4dfp_Header_lines (lines : List String) : Except PyErr PyDict := do
  let ifh := read_ifh_pairs lines
  let h : PyDict := []
  let h := copyKey ifh h "version of keys" "version_of_keys"
  let h := copyKey ifh h "number format" "format"
  let h := copyKey ifh h "conversion program" "conversion_program"
  let h := copyKey ifh h "name of data file" "filename"
  let h := copyKey ifh h "number of bytes per pixel" "bytes_per_pixel"
  -- lines 731-739: byte order, defaulting to big-endian
  let h := match dGet ifh "imagedata byte order" with
    | some (PyVal.str "bigendian") => dSet h "byte" (PyVal.str "b")
    | some (PyVal.str "littleendian") => dSet h "byte" (PyVal.str "l")
    | some _ => dSet h "byte" (PyVal.str "b")
    | none => dSet h "byte" (PyVal.str "b")
  -- lines 741-747: orientation enumeration to acq
  let h := match dGet ifh "orientation" with
    | some (PyVal.str "2") => dSet h "acq" (PyVal.str "transverse")
    | some (PyVal.str "3") => dSet h "acq" (PyVal.str "coronal")
    | some (PyVal.str "4") => dSet h "acq" (PyVal.str "sagittal")
    | _ => h
  let h := copyKey ifh h "number of dimensions" "nDim"
  let h := copyKey ifh h "matrix size [1]" "nVx"
  let h := copyKey ifh h "matrix size [2]" "nVy"
  let h := copyKey ifh h "matrix size [3]" "nVz"
  let h := copyKey ifh h "matrix size [4]" "nVt"
  let h ← parseFloatKey ifh h "scaling factor (mm/pixel) [1]" "mmx"
  let h ← parseFloatKey ifh h "scaling factor (mm/pixel) [2]" "mmy"
  let h ← parseFloatKey ifh h "scaling factor (mm/pixel) [3]" "mmz"
  let h := copyKey ifh h "patient ID" "subjcode"
  let h := copyKey ifh h "date" "filedate"
  let h ← parseVecKey ifh h "mmppix" "mmppix"
  let h ← parseVecKey ifh h "center" "center"
  pure h

/-- The Transverse legacy header of the spec's concrete scenarios:
nVx=nVy=nVz=64, nVt=1, mmx=mmy=mmz=2.0 and no mmppix/center fields
(plus the filename field the conversion reads). -/
def transverseHeader64 : PyDict :=
  [("version_of_keys", PyVal.str "3.3"), ("acq", PyVal.str "transverse"),
   ("nVx", PyVal.int 64), ("nVy", PyVal.int 64), ("nVz", PyVal.int 64),
   ("nVt", PyVal.int 1), ("mmx", PyVal.rat 2), ("mmy", PyVal.rat 2),
   ("mmz", PyVal.rat 2), ("filename", PyVal.str "test")]

/-- The standardized header that the 'n'-direction header computation
produces for `transverseHeader64` after native-space completion. -/
def transverse64NiftiOut : Nifti1Header :=
  { dim := [4, 64, 64, 64, 1, 0, 0, 0], pixdim := [1, 2, 2, 2, 1, 0, 0, 0],
    srow_x := [2, 0, 0, -62], srow_y := [0, 2, 0, -62], srow_z := [0, 0, 2, -62],
    sform_code := 3, qform_code := 3, sizeof_hdr := 348, aux_file := "",
    descrip := "test.4dfp.ifh converted with nifti_4dfp", vox_offset := 352,
    xyzt_units := 10, datatype := 16, bitpix := 32 }

/-- A NIfTI header whose affine has its two largest-magnitude column
entries in the same row: srow_x = [2,3,0,0], srow_y = [1,0,0,0],
srow_z = [0,0,1,0]. -/
def skewedNiftiHeader : PyDict :=
  [("sform_code", PyVal.int 1), ("qform_code", PyVal.int 1),
   ("srow_x", PyVal.ratList [2, 3, 0, 0]), ("srow_y", PyVal.ratList [1, 0, 0, 0]),
   ("srow_z", PyVal.ratList [0, 0, 1, 0]),
   ("dim", PyVal.ratList [4, 2, 2, 2, 1, 0, 0, 0])]

/-- An axis-aligned NIfTI header with an identity linear part and a
2x2x2x1 volume. -/
def identityNiftiHeader : PyDict :=
  [("sform_code", PyVal.int 1), ("qform_code", PyVal.int 1),
   ("srow_x", PyVal.ratList [1, 0, 0, 0]), ("srow_y", PyVal.ratList [0, 1, 0, 0]),
   ("srow_z", PyVal.ratList [0, 0, 1, 0]),
   ("dim", PyVal.ratList [4, 2, 2, 2, 1, 0, 0, 0])]

/-- The legacy header the '4' direction produces for
`identityNiftiHeader`. -/
def identity4dfpOut : Fdfp4Header :=
  { matrix_size := [2, 2, 2, 3], acq := "transverse", nDim := 4, orientation := 2,
    scaling_factor := [1, 1, 1, 1], mmppix := [1, -1, -1], center := [1, -2, -2] }

/-- A Coronal legacy header (orientation = 3) with a 2x3x4x1 volume and
explicit mmppix/center. -/
def coronalHeader234 : PyDict :=
  [("acq", PyVal.str "coronal"), ("orientation", PyVal.int 3),
   ("nVx", PyVal.int 2), ("nVy", PyVal.int 3), ("nVz", PyVal.int 4),
   ("nVt", PyVal.int 1), ("mmppix", PyVal.ratList [2, -2, -2]),
   ("center", PyVal.ratList [4, -6, -6]), ("filename", PyVal.str "cor")]

/-- A complete legacy header carrying every field the serializer prints,
including the optional mmppix and center vectors. -/
def completeHeader : PyDict :=
  [("version_of_keys", PyVal.str "3.3"), ("format", PyVal.str "float"),
   ("bytes_per_pixel", PyVal.int 4), ("byte", PyVal.str "b"),
   ("acq", PyVal.str "transverse"), ("nDim", PyVal.int 4),
   ("nVx", PyVal.int 64), ("nVy", PyVal.int 64), ("nVz", PyVal.int 64),
   ("nVt", PyVal.int 1), ("mmx", PyVal.rat 2), ("mmy", PyVal.rat 2),
   ("mmz", PyVal.rat 2), ("mmppix", PyVal.ratList [2, -2, -2]),
   ("center", PyVal.ratList [64, -66, -66])]

/-- A sagittal legacy header without an 'orientation' key. -/
def sagittalHeaderNoOrientation : PyDict := [("acq", PyVal.str "sagittal")]

/-! ## Theorems -/

theorem dGet_dSet_self (h : PyDict) (k : String) (v : PyVal) :
    dGet (dSet h k v) k = some v := by
  induction h with
  | nil => simp [dGet, dSet]
  | cons p t ih =>
    by_cases hk : p.1 = k
    · simp [dGet, dSet, hk]
    · simp [dGet, dSet, hk, ih]

theorem dGet_dSet_ne (h : PyDict) (k k2 : String) (v : PyVal) (hne : k ≠ k2) :
    dGet (dSet h k v) k2 = dGet h k2 := by
  induction h with
  | nil => simp [dGet, dSet, hne]
  | cons p t ih =>
    by_cases hk : p.1 = k
    · simp [dGet, dSet, hk, hne]
    · by_cases hk2 : p.1 = k2
      · simp [dGet, dSet, hk, hk2, Ne.symm hne]
      · simp [dGet, dSet, hk, hk2, ih]

/-- The `used` guard of the to-LPI scan is trivially true: `~m` of a
nonnegative machine int is never zero, so Python's bitwise not (a
transliteration of MATLAB's logical `~`) fails to exclude claimed axes. -/
theorem to_lpi_used_guard_trivial (m : ℕ) : pyTruthy (pyBitNot m) = true := by
  simp only [pyTruthy, pyBitNot, decide_eq_true_eq]
  omega

/-- Both fields that claim C7 is about are assigned unconditionally by the
final stage of the '4' direction (source lines 644 and 646). -/
theorem nifti_4dfp_4_finish_fields (h : PyDict) (sform : List (List ℚ))
    (out : Fdfp4Header) (hok : nifti_4dfp_4_finish h sform = Except.ok out) :
    out.acq = "transverse" ∧ out.orientation = 2 := by
  unfold nifti_4dfp_4_finish at hok
  cases hd : dGetRatListE h "dim" with
  | error e => rw [hd] at hok; simp [Except.bind] at hok
  | ok dimL =>
    rw [hd] at hok
    simp only [Except.bind, Except.pure] at hok
    cases hok
    exact ⟨rfl, rfl⟩

/-- Claim C1: the to-LPI canonicalization does not always produce a
permutation.  For `skewedNiftiHeader` reaching the to-LPI step of the '4'
direction, the computed order is [0, 0, 2]: axis 0 is claimed for both
output axes 0 and 1, because the `used` exclusion applies Python's bitwise
`~` (always truthy, see `to_lpi_used_guard_trivial`) where logical not was
meant, and the third-axis table then leaves the stale initial entry 2.
The result is not a permutation of 0..2, and nothing aborts. -/
theorem to_lpi_order_not_permutation :
    (nifti_4dfp_4_parse skewedNiftiHeader).map
      (fun p => (to_lpi p.2 [0, 1, 2, 3]).1) = Except.ok [0, 0, 2, 3] ∧
    ¬ (([0, 0, 2, 3] : List ℤ).take 3).Perm [0, 1, 2] := by
  with_unfolding_all decide

/-- Claim C2: the legacy/standardized round trip cannot hold on the code:
already the first legacy-to-standardized conversion raises TypeError in
its voxel reorientation stage (line 401 applies the list `order` with call
syntax) for every volume with at least one axis.  Evaluated on the
Transverse 64-cube header, completed to native space as the load pipeline
does, with the matching 64x64x64 volume shape. -/
theorem roundtrip_first_leg_raises :
    (Make_NativeSpace_4dfp transverseHeader64 >>= fun h =>
      nifti_4dfp_n h [64, 64, 64])
      = Except.error (PyErr.typeError "object is not callable") := by
  with_unfolding_all decide

/-- Claim C3 (counterexample): the native-space completion of the
Transverse 64-cube header computes center = [64, -66, -66]; the claimed
center [2.0*33, -2.0*33, -2.0*33] = [66, -66, -66] disagrees in the first
component, because the formula multiplies mmppix by dims/2 + [0,1,1] and
the first offset is 0, giving 2.0*32. -/
theorem make_nativespace_center_differs :
    (Make_NativeSpace_4dfp transverseHeader64).map (fun h => dGet h "center")
      = Except.ok (some (PyVal.ratList [64, -66, -66])) ∧
    ¬ ((Make_NativeSpace_4dfp transverseHeader64).map (fun h => dGet h "center")
      = Except.ok (some (PyVal.ratList [2 * 33, -(2 * 33), -(2 * 33)]))) := by
  with_unfolding_all decide

/-- Claim C3 (amended): the native-space completion computes
mmppix = [2.0, -2.0, -2.0] and center = mmppix * (dims/2 + [0,1,1])
= [2.0*32, -(2.0*33), -(2.0*33)]. -/
theorem make_nativespace_concrete :
    (Make_NativeSpace_4dfp transverseHeader64).map
      (fun h => (dGet h "mmppix", dGet h "center"))
      = Except.ok (some (PyVal.ratList [2, -2, -2]),
                   some (PyVal.ratList [2 * 32, -(2 * 33), -(2 * 33)])) := by
  with_unfolding_all decide

/-- Claim C4: parse of serialize cannot reproduce any header.  The
serializer raises AttributeError at `header.acq` (line 1167: attribute
access on a dict) for the complete header with mmppix and center, so no
text is produced; and independently, a serialized mmppix line — Python
`str` of a list, `mmppix := [2, -2, -2]` — is rejected by the parser's
whitespace-split float conversion with ValueError. -/
theorem write_then_read_fails :
    Write_4dfp_Header_lines completeHeader "testfile"
      = Except.error (PyErr.attributeError "acq") ∧
    Read_4dfp_Header_lines ["mmppix := " ++ pyStr (PyVal.ratList [2, -2, -2])]
      = Except.error (PyErr.valueError "mmppix") := by
  with_unfolding_all decide

/-- Claim C5 (counterexample): the encoded code value 7, outside the
enumeration 0..3, is not rejected: the decode-path normalization (lines
461-477, and identically lines 122-138) returns the header unchanged,
both codes still 7, with no error — the cascade has no else branch and
the function contains no raise. -/
theorem out_of_range_code_passes_through :
    nifti_4dfp_4_normalize
        [("sform_code", PyVal.int 7), ("qform_code", PyVal.int 7)]
      = Except.ok [("sform_code", PyVal.int 7), ("qform_code", PyVal.int 7)] := by
  with_unfolding_all decide

/-- Claim C5 (amended): the decode path normalizes the string codes
'scanner', 'talairach', 'unknown' to 1, 3, 2 and keeps 0; every other
encoded value — in particular any integer outside 0..3 — is passed
through unchanged, and no value is ever rejected. -/
theorem normalize_code_passthrough (v : PyVal)
    (h1 : pyEq v (PyVal.str "scanner") = false)
    (h2 : pyEq v (PyVal.str "talairach") = false)
    (h3 : pyEq v (PyVal.str "unknown") = false)
    (h4 : pyEq v (PyVal.int 0) = false) :
    normalize_code v = v := by
  simp [normalize_code, h1, h2, h3, h4]

theorem normalize_code_passthrough_witness :
    normalize_code (PyVal.int 9) = PyVal.int 9 :=
  normalize_code_passthrough (PyVal.int 9)
    (by decide) (by decide) (by decide) (by decide)

/-- Claim C6: loading a legacy volume whose declared dimensions disagree
with the raw-data element count always fails with an error naming both
the observed size and the declared shape (numpy's reshape ValueError,
"cannot reshape array of size N into shape (...)"); the mismatch is never
silently accepted. -/
theorem reshape_mismatch_raises (volume : List ℚ) (nVx nVy nVz nVt : ℕ)
    (hne : volume.length ≠ nVx * nVy * nVz * nVt) :
    load_4dfp_reshape volume nVx nVy nVz nVt
      = Except.error { size := volume.length, shape := [nVx, nVy, nVz, nVt] } := by
  simp [load_4dfp_reshape, hne]

theorem reshape_mismatch_raises_witness :
    load_4dfp_reshape [1, 2, 3, 4, 5] 2 2 1 2
      = Except.error { size := 5, shape := [2, 2, 1, 2] } :=
  reshape_mismatch_raises [1, 2, 3, 4, 5] 2 2 1 2 (by decide)

/-- Claim C7: every standardized header that the standardized-to-legacy
('4') path converts successfully yields a legacy header with
acq = 'transverse' and orientation = 2, regardless of the input affine:
the final stage assigns both unconditionally (lines 644 and 646). -/
theorem nifti_4dfp_4_always_transverse (h : PyDict) (out : Fdfp4Header)
    (hok : nifti_4dfp_4_header h = Except.ok out) :
    out.acq = "transverse" ∧ out.orientation = 2 := by
  unfold nifti_4dfp_4_header at hok
  cases hp : nifti_4dfp_4_parse h with
  | error e =>
    rw [hp] at hok
    exact Except.noConfusion hok
  | ok pr =>
    rw [hp] at hok
    simp only [Except.bind] at hok
    exact nifti_4dfp_4_finish_fields pr.1 pr.2 out hok

theorem nifti_4dfp_4_always_transverse_witness :
    nifti_4dfp_4_header identityNiftiHeader = Except.ok identity4dfpOut ∧
    identity4dfpOut.acq = "transverse" ∧ identity4dfpOut.orientation = 2 :=
  ⟨by with_unfolding_all decide,
   nifti_4dfp_4_always_transverse identityNiftiHeader identity4dfpOut
     (by with_unfolding_all decide)⟩

/-- Claim C8: the unconditional Coronal triple mirror is never applied:
for the Coronal header `coronalHeader234` and its matching 2x3x4 volume,
the 'n' conversion raises TypeError in the voxel-stage copy loop (line
401, a Python list applied with call syntax) before any flip, so the
voxel buffer never receives the 3-axis mirror coded at lines 431-434. -/
theorem coronal_voxel_mirror_unreachable :
    nifti_4dfp_n coronalHeader234 [2, 3, 4]
      = Except.error (PyErr.typeError "object is not callable") := by
  with_unfolding_all decide

/-- Claim C9: converting the Transverse 64-cube legacy header (completed
to native space, as the pipeline does) to the standardized form yields
sform_code = 3, qform_code = 3, bitpix = 32, datatype = 16,
sizeof_hdr = 348, vox_offset = 352, xyzt_units = 2 + 8, and an affine
whose diagonal magnitudes are 2.0 on all three spatial axes. -/
theorem transverse64_standardized_header :
    (Make_NativeSpace_4dfp transverseHeader64 >>= nifti_4dfp_n_header).map
      (fun st => st.header_out) = Except.ok transverse64NiftiOut ∧
    transverse64NiftiOut.sform_code = 3 ∧ transverse64NiftiOut.qform_code = 3 ∧
    transverse64NiftiOut.bitpix = 32 ∧ transverse64NiftiOut.datatype = 16 ∧
    transverse64NiftiOut.sizeof_hdr = 348 ∧
    transverse64NiftiOut.vox_offset = 352 ∧
    transverse64NiftiOut.xyzt_units = 2 + 8 ∧
    |lget transverse64NiftiOut.srow_x 0| = 2 ∧
    |lget transverse64NiftiOut.srow_y 1| = 2 ∧
    |lget transverse64NiftiOut.srow_z 2| = 2 := by
  with_unfolding_all decide

/-- Claim C10: for every legacy header with acq = 'sagittal' and no
'orientation' key, the 'n' conversion raises KeyError('orientation'): the
sagittal branch (line 231) assigns the misspelled key 'orienation', so
the unconditional read of header_in['orientation'] at line 247 fails.  An
'orientation' key is therefore a de-facto precondition of the 'n' path
for sagittal inputs. -/
theorem sagittal_without_orientation_keyerror (h : PyDict)
    (hacq : dGet h "acq" = some (PyVal.str "sagittal"))
    (hor : dGet h "orientation" = none) :
    nifti_4dfp_n_header h = Except.error (PyErr.keyError "orientation") := by
  have hmiss : dGet (dSet h "orienation" (PyVal.int 4)) "orientation" = none := by
    rw [dGet_dSet_ne _ _ _ _ (by decide)]
    exact hor
  have horient : nifti_4dfp_n_orient h
      = Except.error (PyErr.keyError "orientation") := by
    simp [nifti_4dfp_n_orient, hacq, dHas, hmiss, dGetE]
  unfold nifti_4dfp_n_header
  rw [horient]
  rfl

theorem sagittal_without_orientation_keyerror_witness :
    nifti_4dfp_n_header sagittalHeaderNoOrientation
      = Except.error (PyErr.keyError "orientation") :=
  sagittal_without_orientation_keyerror sagittalHeaderNoOrientation
    (by decide) (by decide)

end NeuroDOT



